import Mathlib

/-!
Shallow embedding of `source/peer-connection.js` (SkylinkJS peer-connection
lifecycle module).  JavaScript objects used as string-keyed maps are modelled
as association lists; `undefined` lookups are `Option.none`; the value `null`
stored in the peer-connection registry is a distinguished entry constructor.
Effects (event-bus triggers, logging, transport calls, signaling messages,
timer delays) are recorded in an ordered trace of `Event`s.  A thrown
`TypeError` (dereference of `null`/`undefined`) is an explicit error result,
with the mutations performed before the throw kept in the returned state.
-/

/-- `Skylink.prototype.PEER_CONNECTION_STATE` (signaling states). -/
inductive SigState where
  | stable
  | haveLocalOffer
  | haveRemoteOffer
  | closed
deriving DecidableEq, Repr

/-- `Skylink.prototype.ICE_CONNECTION_STATE` values used by this module,
including the synthesised `TRICKLE_FAILED`. -/
inductive IceState where
  | new
  | checking
  | connected
  | completed
  | failed
  | disconnected
  | closed
  | trickleFailed
deriving DecidableEq, Repr

/-- The per-peer transport object (`RTCPeerConnection` plus the attributes the
source attaches to it: `setOffer`, `setAnswer`, `hasStream`, and later
`receiveOnly` and `dataChannelClosed`).  The two boolean attributes start out
`undefined` in JS; every read in the source coerces them with `!!`, under which
`undefined` behaves exactly as `false`, so they are modelled as `Bool`
initialised to `false`. -/
structure PC where
  setOffer : String
  setAnswer : String
  hasStream : Bool
  receiveOnly : Bool
  dataChannelClosed : Bool
  signalingState : SigState
  iceConnectionState : IceState
deriving DecidableEq, Repr

/-- A value stored in `self._peerConnections[peerId]`: either a live transport
object or the literal `null` that `_createPeerConnection` returns on
allocation failure (which `_addPeer` stores verbatim). -/
inductive PCEntry where
  | null
  | pc (c : PC)
deriving DecidableEq, Repr

/-- A thrown JS error.  The only one this module can raise is a `TypeError`
from dereferencing `null` or `undefined`. -/
inductive JSError where
  | typeError
deriving DecidableEq, Repr

/-- One observable effect, in program order. -/
inductive Event where
  | logErr (peerId msg : String)
  | logInfo (peerId msg : String)
  | triggerIceConnectionState (st : IceState) (peerId : String)
  | triggerPeerConnectionState (st : SigState) (peerId : String)
  | triggerStreamEnded (peerId : String)
  | triggerPeerRestart (peerId : String)
  | triggerPeerLeft (peerId : String)
  | onceIceClosed (peerId : String)
  | oncePcClosed (peerId : String)
  | startHealthCheck (peerId : String)
  | stopHealthCheck (peerId : String)
  | setDataChannelClosed (peerId : String)
  | transportClose (peerId : String)
  | barrierBothClosed (peerId : String)
  | deleteRecord (peerId : String)
  | createTransport (peerId : String)
  | delayMs (n : Nat)
  | setRecvOnly (peerId : String) (v : Bool)
  | addLocalMediaStreams (peerId : String)
  | createDataChannel (peerId : String)
  | doOffer (peerId : String)
  | sendRestartMessage (target : String) (isConnectionRestart : Bool) (lastRestart : Nat)
  | invokeRestart (peerId : String) (selfInitiated : Bool) (connectionRestart : Option Bool)
  | closeDataChannel (peerId : String)
  | callbackFired
deriving DecidableEq, Repr

/-- Lookup in a string-keyed association list (a JS object read:
`none` models `undefined`). -/
def lookupKV {α : Type} (k : String) : List (String × α) → Option α
  | [] => none
  | (k', v) :: rest => if k' = k then some v else lookupKV k rest

/-- Assignment `obj[k] = v` on a string-keyed association list. -/
def setKV {α : Type} (k : String) (v : α) : List (String × α) → List (String × α)
  | [] => [(k, v)]
  | (k', v') :: rest => if k' = k then (k, v) :: rest else (k', v') :: setKV k v rest

/-- `delete obj[k]` on a string-keyed association list. -/
def removeKV {α : Type} (k : String) : List (String × α) → List (String × α)
  | [] => []
  | (k', v') :: rest => if k' = k then removeKV k rest else (k', v') :: removeKV k rest

/-- Remove a key from a key-set. -/
def removeStr (k : String) (l : List String) : List String :=
  l.filter (fun x => x ≠ k)

/-- Add a key to a key-set. -/
def setStr (k : String) (l : List String) : List String :=
  if l.contains k then l else l ++ [k]

/-- JS truthiness of a `_peerConnections` read: truthy iff the key is present
and bound to a non-`null` transport. -/
def truthyEntry : Option PCEntry → Bool
  | some (PCEntry.pc _) => true
  | _ => false

/-- The mutable `Skylink` instance state this module reads and writes.
`lastRestart` models the `self.lastRestart` property read by
`refreshConnection`: the source declares `_lastRestart` (initialised to
`null`) and never assigns either spelling, so the read always yields
`undefined` (`none`).  `throttleLast` is the shared timestamp of the
`_throttle` utility (modelled from the spec, see `throttleAllows`). -/
structure SkylinkState where
  peerConnections : List (String × PCEntry)
  peerConnectionHealth : List (String × Bool)
  healthChecks : List String
  ICEConnectionFailures : List (String × Nat)
  peerIceTrickleDisabled : List (String × Bool)
  peerHSPriorities : List String
  peerInformations : List String
  dataChannels : List String
  enableDataChannel : Bool
  enableIceTrickle : Bool
  hasMCU : Bool
  lastRestart : Option Nat
  throttleLast : Option Nat
deriving DecidableEq, Repr

/-- A freshly constructed transport: `new RTCPeerConnection(...)` starts in
signaling state `stable` and ICE state `new`; the source then attaches
`setOffer = ''`, `setAnswer = ''`, `hasStream = false`.  `receiveOnly` and
`dataChannelClosed` are still `undefined` (modelled `false`, see `PC`). -/
def freshPC : PC :=
  { setOffer := ""
    setAnswer := ""
    hasStream := false
    receiveOnly := false
    dataChannelClosed := false
    signalingState := SigState.stable
    iceConnectionState := IceState.new }

/-- `Skylink.prototype._createPeerConnection` (lines 274-288 of the trace-free
core; the handler wiring is modelled separately as the handler functions
below).  `allocOk` is whether `new window.RTCPeerConnection(...)` succeeds;
on failure the function logs and returns `null` (`none`). -/
def _createPeerConnection (targetMid : String) (allocOk : Bool) :
    Option PC × List Event :=
  if allocOk then
    (some freshPC,
     [Event.logInfo targetMid "Created peer connection",
      Event.createTransport targetMid])
  else
    (none, [Event.logErr targetMid "Failed creating peer connection"])

/-- Store a factory result exactly as `_addPeer` line 78 does:
a successful allocation as the object, a failed one as `null`. -/
def entryOfOpt : Option PC → PCEntry
  | some c => PCEntry.pc c
  | none => PCEntry.null

/-- `Skylink.prototype._addPeer` (lines 65-94).  The duplicate guard fires
only when the registry read is truthy and `restartConn` is falsy; when
`restartConn` is falsy a transport is allocated and its result (possibly
`null`) is stored; line 80 then dereferences `_peerConnections[targetMid]`
to assign `receiveOnly`, which throws a `TypeError` when that read is `null`
(failed allocation) or `undefined` (restart path with no existing record).
`_startPeerConnectionHealthCheck` is outside this source file; modelled from
the spec (4.3): it starts the per-peer watchdog, at most one per peer. -/
def _addPeer (targetMid : String) (toOffer restartConn receiveOnly : Bool)
    (allocOk : Bool) (s : SkylinkState) :
    SkylinkState × List Event × Option JSError :=
  if truthyEntry (lookupKV targetMid s.peerConnections) ∧ ¬restartConn then
    (s, [Event.logErr targetMid "Connection to peer has already been made"], none)
  else
    let ev0 := [Event.logInfo targetMid "Starting the connection to peer"]
    let step :=
      if ¬restartConn then
        let r := _createPeerConnection targetMid allocOk
        ({ s with peerConnections := setKV targetMid (entryOfOpt r.1) s.peerConnections },
         ev0 ++ r.2)
      else (s, ev0)
    let s1 := step.1
    let evs1 := step.2
    match lookupKV targetMid s1.peerConnections with
    | some (PCEntry.pc c) =>
      let entry2 := PCEntry.pc { c with receiveOnly := receiveOnly }
      let s2 := { s1 with peerConnections := setKV targetMid entry2 s1.peerConnections }
      let evMedia := if ¬receiveOnly then [Event.addLocalMediaStreams targetMid] else []
      let stepOffer :=
        if toOffer then
          let stepDC :=
            if s2.enableDataChannel then
              ({ s2 with dataChannels := setStr targetMid s2.dataChannels },
               [Event.createDataChannel targetMid])
            else (s2, ([] : List Event))
          (stepDC.1, stepDC.2 ++ [Event.doOffer targetMid])
        else (s2, ([] : List Event))
      let sO := stepOffer.1
      let s3 := { sO with healthChecks := setStr targetMid sO.healthChecks }
      (s3, evs1 ++ evMedia ++ stepOffer.2 ++ [Event.startHealthCheck targetMid], none)
    | _ => (s1, evs1, some JSError.typeError)

/-- `Skylink.prototype._restartPeerConnection` (lines 111-206), linearised
into a single trace under the assumption that the close-barrier clears and
the one-second timer fires.  The `_wait` utility and the one-shot event-bus
subscriptions are outside this source file; modelled from the spec (4.4 steps
3 and 6): the two one-shot registrations are recorded as events, and
`barrierBothClosed` marks the point at which both CLOSED one-shots have fired
and the waiting continuation resumes.  `isConnectionRestart` is `Option Bool`
because `refreshConnection` omits the argument (`undefined`); the source
coerces it with `!!` before sending.  `now` is `Date.now()` inside the timer
body.  If the re-allocation inside the continuation fails, the registry holds
`null` and the timer body throws a `TypeError` at the `receiveOnly`
assignment. -/
def _restartPeerConnection (peerId : String) (isSelfInitiatedRestart : Bool)
    (isConnectionRestart : Option Bool) (hasCallback : Bool) (allocOk : Bool)
    (now : Nat) (s : SkylinkState) :
    SkylinkState × List Event × Option JSError :=
  match lookupKV peerId s.peerConnections with
  | some (PCEntry.pc c) =>
    let receiveOnly := c.receiveOnly
    let entry1 := PCEntry.pc { c with dataChannelClosed := true }
    let s1 := { s with peerConnections := setKV peerId entry1 s.peerConnections }
    let s2 := { s1 with peerConnectionHealth := removeKV peerId s1.peerConnectionHealth,
                        healthChecks := removeStr peerId s1.healthChecks }
    let evClose := if c.signalingState = SigState.closed then [] else [Event.transportClose peerId]
    let evStream := if c.hasStream then [Event.triggerStreamEnded peerId] else []
    let s3 := { s2 with peerConnections := removeKV peerId s2.peerConnections }
    let alloc := _createPeerConnection peerId allocOk
    let s4 := { s3 with peerConnections := setKV peerId (entryOfOpt alloc.1) s3.peerConnections }
    let evHead :=
      [Event.logInfo peerId "Restarting a peer connection",
       Event.setDataChannelClosed peerId,
       Event.onceIceClosed peerId, Event.oncePcClosed peerId,
       Event.stopHealthCheck peerId] ++ evClose ++ evStream ++
      [Event.barrierBothClosed peerId, Event.deleteRecord peerId] ++ alloc.2 ++
      [Event.delayMs 1000]
    match alloc.1 with
    | some fresh =>
      let entry5 := PCEntry.pc { fresh with receiveOnly := receiveOnly }
      let s5 := { s4 with peerConnections := setKV peerId entry5 s4.peerConnections }
      let evMedia := if receiveOnly then [] else [Event.addLocalMediaStreams peerId]
      let evMsg :=
        if isSelfInitiatedRestart then
          [Event.logInfo peerId "Sending restart message to signaling server",
           Event.sendRestartMessage peerId (isConnectionRestart.getD false) now]
        else []
      let evCb := if hasCallback then [Event.callbackFired] else []
      (s5,
       evHead ++ [Event.setRecvOnly peerId receiveOnly] ++ evMedia ++ evMsg ++
         [Event.triggerPeerRestart peerId] ++ evCb,
       none)
    | none => (s4, evHead, some JSError.typeError)
  | _ =>
    (s, [Event.logErr peerId "Peer does not have an existing connection. Unable to restart"],
     none)

/-- `Skylink.prototype._removePeer` (lines 219-261).  Line 230 assigns
`dataChannelClosed` on `this._peerConnections[peerId]` before the
`typeof ... undefined` guard at line 233, so an unknown peer id (or a `null`
entry) throws a `TypeError` there, after `peerLeft` has already been emitted
and the watchdog stopped. -/
def _removePeer (peerId : String) (s : SkylinkState) :
    SkylinkState × List Event × Option JSError :=
  let stepMCU :=
    if peerId = "MCU" then
      ({ s with hasMCU := false },
       [Event.logInfo peerId "MCU has stopped listening and left"])
    else (s, [Event.triggerPeerLeft peerId])
  let s0 := stepMCU.1
  let s1 := { s0 with healthChecks := removeStr peerId s0.healthChecks }
  let ev1 := stepMCU.2 ++ [Event.stopHealthCheck peerId]
  match lookupKV peerId s1.peerConnections with
  | some (PCEntry.pc c) =>
    let c1 : PC := { c with dataChannelClosed := true }
    let s2 := { s1 with peerConnections := setKV peerId (PCEntry.pc c1) s1.peerConnections }
    let evClose := if c1.signalingState = SigState.closed then [] else [Event.transportClose peerId]
    let evStream := if c1.hasStream then [Event.triggerStreamEnded peerId] else []
    let s3 := { s2 with peerConnections := removeKV peerId s2.peerConnections,
                        peerHSPriorities := removeStr peerId s2.peerHSPriorities,
                        peerInformations := removeStr peerId s2.peerInformations,
                        peerConnectionHealth := removeKV peerId s2.peerConnectionHealth }
    let stepDC :=
      if s3.enableDataChannel then
        ({ s3 with dataChannels := removeStr peerId s3.dataChannels },
         [Event.closeDataChannel peerId])
      else (s3, ([] : List Event))
    (stepDC.1,
     ev1 ++ [Event.setDataChannelClosed peerId] ++ evClose ++ evStream ++ stepDC.2 ++
       [Event.logInfo peerId "Successfully removed peer"],
     none)
  | _ => (s1, ev1, some JSError.typeError)

/-- The `pc.oniceconnectionstatechange` handler installed by
`_createPeerConnection` (lines 313-368).  The browser updates
`pc.iceConnectionState` before firing the handler; `checkIceConnectionState`
(outside this source file) forwards the new state to the callback.  The
nested call `self._restartPeerConnection(targetMid, true, true)` is recorded
as an `invokeRestart` event; the restart behaviour itself is
`_restartPeerConnection` above.  The handler body mutates four disjoint
per-peer maps (health, watchdog set, failure counts, trickle-disable flags);
each map's final value is computed separately here, following the source
order: the stabilization step, then the failure-count initialisation (lines
330-332), then the threshold check on the pre-increment count (lines
334-336), then on FAILED the increment, the trickle check against the
just-updated flag, and the restart invocation (lines 338-347). -/
def oniceconnectionstatechange (targetMid : String) (newState : IceState)
    (pc : PC) (s : SkylinkState) : PC × SkylinkState × List Event :=
  let pc1 := { pc with iceConnectionState := newState }
  let ev0 := [Event.triggerIceConnectionState newState targetMid]
  let isStable := newState = IceState.completed ∧ pc1.signalingState = SigState.stable
  let health1 := if isStable then setKV targetMid true s.peerConnectionHealth
    else s.peerConnectionHealth
  let checks1 := if isStable then removeStr targetMid s.healthChecks else s.healthChecks
  let evStable := if isStable then [Event.stopHealthCheck targetMid] else ([] : List Event)
  let fail1 :=
    match lookupKV targetMid s.ICEConnectionFailures with
    | none => setKV targetMid 0 s.ICEConnectionFailures
    | some _ => s.ICEConnectionFailures
  let f1 := (lookupKV targetMid fail1).getD 0
  let dis1 := if f1 > 2 then setKV targetMid true s.peerIceTrickleDisabled
    else s.peerIceTrickleDisabled
  if newState = IceState.failed then
    let fail2 := setKV targetMid (f1 + 1) fail1
    let evTrickle :=
      if s.enableIceTrickle = true ∧ (lookupKV targetMid dis1).getD false = false then
        [Event.triggerIceConnectionState IceState.trickleFailed targetMid]
      else []
    (pc1,
     { s with peerConnectionHealth := health1, healthChecks := checks1,
              ICEConnectionFailures := fail2, peerIceTrickleDisabled := dis1 },
     ev0 ++ evStable ++ evTrickle ++ [Event.invokeRestart targetMid true (some true)])
  else
    (pc1,
     { s with peerConnectionHealth := health1, healthChecks := checks1,
              ICEConnectionFailures := fail1, peerIceTrickleDisabled := dis1 },
     ev0 ++ evStable)

/-- The `pc.onsignalingstatechange` handler installed by
`_createPeerConnection` (lines 372-387).  The browser updates
`pc.signalingState` before firing the handler. -/
def onsignalingstatechange (targetMid : String) (newState : SigState)
    (pc : PC) (s : SkylinkState) : PC × SkylinkState × List Event :=
  let pc1 := { pc with signalingState := newState }
  let ev0 := [Event.triggerPeerConnectionState newState targetMid]
  if (pc1.iceConnectionState = IceState.completed ∨
      pc1.iceConnectionState = IceState.connected) ∧
      pc1.signalingState = SigState.stable then
    (pc1,
     { s with peerConnectionHealth := setKV targetMid true s.peerConnectionHealth,
              healthChecks := removeStr targetMid s.healthChecks },
     ev0 ++ [Event.stopHealthCheck targetMid])
  else (pc1, s, ev0)

/-- The cooldown comparison `now - self.lastRestart < 3000` inside
`refreshSinglePeer` (line 433).  `self.lastRestart` is never assigned
anywhere in the source file (the declared attribute is `_lastRestart`,
initialised to `null` and also never updated), so the read yields
`undefined`: the subtraction is `NaN` and every `<` comparison on `NaN`
is `false`. -/
def cooldownRejects (now : Nat) (lastRestart : Option Nat) : Bool :=
  match lastRestart with
  | none => false
  | some t => decide ((now : Int) - (t : Int) < 3000)

/-- The `refreshSinglePeer` closure inside `Skylink.prototype.refreshConnection`
(lines 423-441).  The nested call `self._restartPeerConnection(peer, true)`
omits the `isConnectionRestart` argument (`undefined`, recorded as `none`);
it is recorded as an `invokeRestart` event, the restart behaviour itself
being `_restartPeerConnection`. -/
def refreshSinglePeer (peer : String) (now : Nat) (s : SkylinkState) :
    SkylinkState × List Event :=
  if truthyEntry (lookupKV peer s.peerConnections) = false then
    (s, [Event.logErr peer
      "There is currently no existing peer connection made with the peer. Unable to restart connection"])
  else if cooldownRejects now s.lastRestart then
    (s, [Event.logErr peer "Last restart was so tight. Aborting."])
  else
    (s, [Event.invokeRestart peer true none])

/-- Modelled from the spec: the `_throttle` utility is not in `src/source`
(only its call site `self._throttle(toRefresh, 5000)()` is).  Spec 4.4: the
refresh operation is globally throttled to at most one execution per `wait`
milliseconds, excess calls within the window dropped, not queued; the shared
timestamp is recorded on the instance. -/
def throttleAllows (wait : Nat) (last : Option Nat) (now : Nat) : Bool :=
  match last with
  | none => true
  | some t0 => decide (now - t0 ≥ wait)

/-- The peers targeted by one `toRefresh` execution (lines 443-453): a single
peer id when given, otherwise a snapshot of every key in
`_peerConnections`. -/
def toRefreshTargets (peerId : Option String) (s : SkylinkState) : List String :=
  match peerId with
  | none => s.peerConnections.map Prod.fst
  | some pid => [pid]

/-- The `toRefresh` body run over its targets (lines 443-453), threading the
state and concatenating the per-peer traces. -/
def toRefreshFold (now : Nat) (targets : List String) (acc : SkylinkState × List Event) :
    SkylinkState × List Event :=
  targets.foldl
    (fun (acc : SkylinkState × List Event) pid =>
      let r := refreshSinglePeer pid now acc.1
      (r.1, acc.2 ++ r.2))
    acc

/-- `Skylink.prototype.refreshConnection` (lines 414-457): the MCU guard, then
the throttled `toRefresh` body.  The returned `Bool` is whether the throttle
let the body execute this time. -/
def refreshConnection (peerId : Option String) (now : Nat) (s : SkylinkState) :
    SkylinkState × List Event × Bool :=
  if s.hasMCU then
    (s, [Event.logErr (peerId.getD "") "Restart functionality for MCU is not yet supported"],
     false)
  else if throttleAllows 5000 s.throttleLast now then
    let body := toRefreshFold now (toRefreshTargets peerId s) (s, ([] : List Event))
    ({ body.1 with throttleLast := some now }, body.2, true)
  else (s, [], false)

/-- A sequence of `refreshConnection` calls at the given (chronological)
times; returns the final state and how many times the throttled body
executed. -/
def refreshCallCount (peerId : Option String) (ts : List Nat) (s : SkylinkState) :
    SkylinkState × Nat :=
  match ts with
  | [] => (s, 0)
  | t :: rest =>
    let r := refreshConnection peerId t s
    let rr := refreshCallCount peerId rest r.1
    (rr.1, (if r.2.2 then 1 else 0) + rr.2)

/-- Boolean subsequence test: `subseq pat l` is true iff the elements of
`pat` occur in `l` in order (not necessarily contiguously). -/
def subseq {α : Type} [DecidableEq α] : List α → List α → Bool
  | [], _ => true
  | _ :: _, [] => false
  | a :: as, b :: bs => if a = b then subseq as bs else subseq (a :: as) bs

/-- Number of occurrences of an element in a trace. -/
def countEv (e : Event) : List Event → Nat
  | [] => 0
  | x :: xs => (if x = e then 1 else 0) + countEv e xs

/-- A `Skylink` instance in its declared initial state (empty registries,
data channels and trickle ICE enabled, no MCU, `_lastRestart` null /
`lastRestart` undefined). -/
def emptyState : SkylinkState :=
  { peerConnections := []
    peerConnectionHealth := []
    healthChecks := []
    ICEConnectionFailures := []
    peerIceTrickleDisabled := []
    peerHSPriorities := []
    peerInformations := []
    dataChannels := []
    enableDataChannel := true
    enableIceTrickle := true
    hasMCU := false
    lastRestart := none
    throttleLast := none }

/-- A live connected transport, used as a concrete record in counterexamples
and witnesses. -/
def pcLive : PC :=
  { setOffer := ""
    setAnswer := ""
    hasStream := false
    receiveOnly := false
    dataChannelClosed := false
    signalingState := SigState.stable
    iceConnectionState := IceState.connected }

/-- A state holding exactly one live record, for the peer id "alice". -/
def aliceState : SkylinkState :=
  { emptyState with peerConnections := [("alice", PCEntry.pc pcLive)] }

theorem lookup_setKV_self {α : Type} (k : String) (v : α) (m : List (String × α)) :
    lookupKV k (setKV k v m) = some v := by
  induction m with
  | nil => simp [setKV, lookupKV]
  | cons hd tl ih =>
    obtain ⟨k', v'⟩ := hd
    by_cases h : k' = k
    · simp [setKV, lookupKV, h]
    · simp [setKV, lookupKV, h, ih]

theorem setKV_setKV_self {α : Type} (k : String) (v v' : α) (m : List (String × α)) :
    setKV k v (setKV k v' m) = setKV k v m := by
  induction m with
  | nil => simp [setKV]
  | cons hd tl ih =>
    obtain ⟨k', w⟩ := hd
    by_cases h : k' = k
    · simp [setKV, h]
    · simp [setKV, h, ih]

theorem not_mem_removeStr (k : String) (l : List String) : k ∉ removeStr k l := by
  simp [removeStr]

theorem removeStr_removeStr (k : String) (l : List String) :
    removeStr k (removeStr k l) = removeStr k l := by
  simp [removeStr, List.filter_filter]

theorem refreshSinglePeer_state (p : String) (now : Nat) (s : SkylinkState) :
    (refreshSinglePeer p now s).1 = s := by
  unfold refreshSinglePeer
  split
  · rfl
  · split <;> rfl

/-- C6: for every peer id with an existing (non-null) record, a non-restart
`_addPeer` call fails the duplicate guard: it logs the duplicate-connection
error and returns before any mutation, leaving the whole state (in
particular the existing record and all its fields) unchanged, with no
exception. -/
theorem duplicate_connection_rejected (p : String) (c : PC)
    (toOffer recvOnly allocOk : Bool) (s : SkylinkState)
    (h : lookupKV p s.peerConnections = some (PCEntry.pc c)) :
    _addPeer p toOffer false recvOnly allocOk s =
      (s, [Event.logErr p "Connection to peer has already been made"], none) := by
  unfold _addPeer
  rw [h]
  simp [truthyEntry]

/-- C6 witness: a concrete duplicate `_addPeer` call on a one-record state. -/
theorem duplicate_connection_rejected_witness :
    lookupKV "alice" aliceState.peerConnections = some (PCEntry.pc pcLive) ∧
      _addPeer "alice" false false false true aliceState =
        (aliceState, [Event.logErr "alice" "Connection to peer has already been made"], none) :=
  ⟨by decide, duplicate_connection_rejected "alice" pcLive false false true aliceState (by decide)⟩

/-- C10: for every peer id with no existing record, `_addPeer` with
`restartConn = true` passes the duplicate guard, skips transport allocation
(no transport is constructed), and then throws a `TypeError` dereferencing
the absent record at the `receiveOnly` assignment, leaving the state (and in
particular the registry, which still has no record for the peer) unchanged. -/
theorem addPeer_restart_absent_faults (p : String) (toOffer recvOnly allocOk : Bool)
    (s : SkylinkState) (h : lookupKV p s.peerConnections = none) :
    _addPeer p toOffer true recvOnly allocOk s =
        (s, [Event.logInfo p "Starting the connection to peer"], some JSError.typeError) ∧
      lookupKV p (_addPeer p toOffer true recvOnly allocOk s).1.peerConnections = none ∧
      Event.createTransport p ∉ (_addPeer p toOffer true recvOnly allocOk s).2.1 := by
  unfold _addPeer
  simp [truthyEntry, h]

/-- C10 witness: a concrete restart-flagged `_addPeer` on an absent peer. -/
theorem addPeer_restart_absent_faults_witness :
    lookupKV "bob" aliceState.peerConnections = none ∧
      (_addPeer "bob" true true false true aliceState =
          (aliceState, [Event.logInfo "bob" "Starting the connection to peer"],
           some JSError.typeError) ∧
        lookupKV "bob" (_addPeer "bob" true true false true aliceState).1.peerConnections = none ∧
        Event.createTransport "bob" ∉ (_addPeer "bob" true true false true aliceState).2.1) :=
  ⟨by decide, addPeer_restart_absent_faults "bob" true false true aliceState (by decide)⟩

/-- C7: when transport allocation fails on the non-restart `_addPeer` path,
the factory returns `null` — but the caller stores that `null` under the
peer id in `_peerConnections` (a registry entry is registered) and then
throws a `TypeError` assigning `receiveOnly` on it, contradicting the
claim that no record is registered and no further action is taken. -/
theorem alloc_failure_registers_null :
    lookupKV "alice" (_addPeer "alice" false false false false emptyState).1.peerConnections
        = some PCEntry.null ∧
      (_addPeer "alice" false false false false emptyState).2.2 = some JSError.typeError ∧
      Event.logErr "alice" "Failed creating peer connection" ∈
        (_addPeer "alice" false false false false emptyState).2.1 := by
  decide

/-- C8: restart and refresh on an unknown peer id are logged no-ops, but
`_removePeer` on an unknown peer id emits `peerLeft` and then throws a
`TypeError` at the `dataChannelClosed` assignment (line 230, before the
`typeof` guard at line 233), contradicting the claim that all three are
exception-free no-ops. -/
theorem unknown_peer_remove_throws :
    _restartPeerConnection "ghost" true (some true) false true 0 aliceState =
        (aliceState,
         [Event.logErr "ghost" "Peer does not have an existing connection. Unable to restart"],
         none) ∧
      refreshSinglePeer "ghost" 100 aliceState =
        (aliceState,
         [Event.logErr "ghost"
           "There is currently no existing peer connection made with the peer. Unable to restart connection"]) ∧
      (_removePeer "ghost" aliceState).2.2 = some JSError.typeError ∧
      Event.triggerPeerLeft "ghost" ∈ (_removePeer "ghost" aliceState).2.1 ∧
      (_removePeer "ghost" aliceState).1.peerConnections = aliceState.peerConnections := by
  decide

/-- C2: the 3000 ms cooldown in `refreshSinglePeer` never rejects a call:
the comparison reads `self.lastRestart`, which is never assigned anywhere in
the source (the declared attribute is `_lastRestart`, itself never updated),
so `now - undefined` is `NaN` and the `< 3000` test is always false — for
every elapsed time the refresh proceeds straight to invoking
`_restartPeerConnection(peer, true)` instead of being rejected. -/
theorem refresh_cooldown_never_rejects (now : Nat) :
    refreshSinglePeer "alice" now aliceState =
      (aliceState, [Event.invokeRestart "alice" true none]) := by
  unfold refreshSinglePeer
  simp [cooldownRejects, aliceState, emptyState, truthyEntry, lookupKV]

/-- C5: on an `iceConnectionState` transition to FAILED for peer `p`, the
failure counter for `p` is incremented (from 0 when previously undefined); a
synthetic TRICKLE_FAILED `iceConnectionState` event for `p` is published iff
trickle ICE is enabled globally and the per-peer trickle-disable flag is
still unset at the publish check (i.e. it was unset before the transition
and the stored failure count had not yet exceeded 2, the handler applying
its threshold step before the check); and `_restartPeerConnection(p, true,
true)` is then invoked unconditionally. -/
theorem ice_failed_effects (p : String) (pc : PC) (s : SkylinkState) :
    lookupKV p (oniceconnectionstatechange p IceState.failed pc s).2.1.ICEConnectionFailures
        = some ((lookupKV p s.ICEConnectionFailures).getD 0 + 1) ∧
      ((Event.triggerIceConnectionState IceState.trickleFailed p ∈
          (oniceconnectionstatechange p IceState.failed pc s).2.2) ↔
        (s.enableIceTrickle = true ∧
         (lookupKV p s.peerIceTrickleDisabled).getD false = false ∧
         (lookupKV p s.ICEConnectionFailures).getD 0 ≤ 2)) ∧
      Event.invokeRestart p true (some true) ∈
        (oniceconnectionstatechange p IceState.failed pc s).2.2 := by
  unfold oniceconnectionstatechange
  cases hf : lookupKV p s.ICEConnectionFailures with
  | none =>
    simp [hf, lookup_setKV_self]
  | some n =>
    by_cases hn : n > 2
    · simp [hf, hn, lookup_setKV_self]
    · simp [hf, hn, lookup_setKV_self]
      omega

theorem ice_failed_count_le2 (p : String) (pc : PC) (s : SkylinkState) (n : Nat)
    (hn : (lookupKV p s.ICEConnectionFailures).getD 0 = n) (h2 : n ≤ 2) :
    lookupKV p (oniceconnectionstatechange p IceState.failed pc s).2.1.ICEConnectionFailures
        = some (n + 1) ∧
      (oniceconnectionstatechange p IceState.failed pc s).2.1.peerIceTrickleDisabled
        = s.peerIceTrickleDisabled := by
  unfold oniceconnectionstatechange
  cases hf : lookupKV p s.ICEConnectionFailures with
  | none =>
    rw [hf] at hn
    simp at hn
    subst hn
    simp [hf, lookup_setKV_self]
  | some m =>
    rw [hf] at hn
    simp at hn
    subst hn
    have hm : ¬ (2 < m) := by omega
    simp [hf, hm, lookup_setKV_self]

theorem ice_event_disables (p : String) (st : IceState) (pc : PC) (s : SkylinkState)
    (h3 : (lookupKV p s.ICEConnectionFailures).getD 0 > 2) :
    lookupKV p (oniceconnectionstatechange p st pc s).2.1.peerIceTrickleDisabled
      = some true := by
  unfold oniceconnectionstatechange
  cases hf : lookupKV p s.ICEConnectionFailures with
  | none =>
    rw [hf] at h3
    simp at h3
  | some m =>
    rw [hf] at h3
    simp at h3
    by_cases hst : st = IceState.failed
    · simp [hf, h3, hst, lookup_setKV_self]
    · simp [hf, h3, hst, lookup_setKV_self]

theorem ice_event_keeps_disabled (p : String) (st : IceState) (pc : PC) (s : SkylinkState)
    (hd : lookupKV p s.peerIceTrickleDisabled = some true) :
    lookupKV p (oniceconnectionstatechange p st pc s).2.1.peerIceTrickleDisabled
      = some true := by
  unfold oniceconnectionstatechange
  cases hf : lookupKV p s.ICEConnectionFailures with
  | none =>
    by_cases hst : st = IceState.failed <;> simp [hf, hst, lookup_setKV_self, hd]
  | some m =>
    by_cases hm : 2 < m <;> by_cases hst : st = IceState.failed <;>
      simp [hf, hm, hst, lookup_setKV_self, hd]

/-- C3 counterexample: from a fresh state, after exactly three consecutive
FAILED transitions for "alice" the failure count is 3 but
`iceTrickleDisabled` is still unset — the claim that three FAILED
transitions set it true is false, because the threshold check (`> 2`) runs
before the increment within each handler invocation. -/
theorem three_failed_trickle_not_disabled :
    (let r1 := oniceconnectionstatechange "alice" IceState.failed pcLive aliceState
     let r2 := oniceconnectionstatechange "alice" IceState.failed r1.1 r1.2.1
     let r3 := oniceconnectionstatechange "alice" IceState.failed r2.1 r2.2.1
     lookupKV "alice" r3.2.1.ICEConnectionFailures = some 3 ∧
       lookupKV "alice" r3.2.1.peerIceTrickleDisabled ≠ some true) := by
  decide

/-- C3 amended: for every peer id with no prior failure count and the flag
unset, after exactly three consecutive FAILED transitions the failure count
is 3 and `iceTrickleDisabled` is still unset; the flag becomes true at the
start of the NEXT `iceConnectionState` event for that peer (whatever state
it reports, the threshold check preceding the increment), and once true it
stays true across every further event (setting it is idempotent). -/
theorem trickle_disabled_on_fourth_event (p : String) (pc : PC) (s : SkylinkState)
    (hf : lookupKV p s.ICEConnectionFailures = none)
    (hd : lookupKV p s.peerIceTrickleDisabled = none) :
    (let r1 := oniceconnectionstatechange p IceState.failed pc s
     let r2 := oniceconnectionstatechange p IceState.failed r1.1 r1.2.1
     let r3 := oniceconnectionstatechange p IceState.failed r2.1 r2.2.1
     lookupKV p r3.2.1.ICEConnectionFailures = some 3 ∧
       lookupKV p r3.2.1.peerIceTrickleDisabled = none ∧
       (∀ (st : IceState) (pc4 : PC),
         lookupKV p (oniceconnectionstatechange p st pc4 r3.2.1).2.1.peerIceTrickleDisabled
           = some true)) ∧
      (∀ (st : IceState) (pc' : PC) (s' : SkylinkState),
        lookupKV p s'.peerIceTrickleDisabled = some true →
        lookupKV p (oniceconnectionstatechange p st pc' s').2.1.peerIceTrickleDisabled
          = some true) := by
  have h1 := ice_failed_count_le2 p pc s 0 (by rw [hf]; rfl) (by omega)
  have h2 := ice_failed_count_le2 p (oniceconnectionstatechange p IceState.failed pc s).1
    (oniceconnectionstatechange p IceState.failed pc s).2.1 1
    (by rw [h1.1]; rfl) (by omega)
  have h3 := ice_failed_count_le2 p
    (oniceconnectionstatechange p IceState.failed
      (oniceconnectionstatechange p IceState.failed pc s).1
      (oniceconnectionstatechange p IceState.failed pc s).2.1).1
    (oniceconnectionstatechange p IceState.failed
      (oniceconnectionstatechange p IceState.failed pc s).1
      (oniceconnectionstatechange p IceState.failed pc s).2.1).2.1 2
    (by rw [h2.1]; rfl) (by omega)
  refine ⟨⟨h3.1, ?_, ?_⟩, ?_⟩
  · rw [h3.2, h2.2, h1.2, hd]
  · intro st pc4
    exact ice_event_disables p st pc4 _ (by rw [h3.1]; simp)
  · intro st pc' s' hd'
    exact ice_event_keeps_disabled p st pc' s' hd'

/-- C3 witness: concrete instantiation of the amended theorem at peer
"alice" from the one-record initial state. -/
theorem trickle_disabled_on_fourth_event_witness :
    lookupKV "alice" aliceState.ICEConnectionFailures = none ∧
      lookupKV "alice" aliceState.peerIceTrickleDisabled = none ∧
      ((let r1 := oniceconnectionstatechange "alice" IceState.failed pcLive aliceState
        let r2 := oniceconnectionstatechange "alice" IceState.failed r1.1 r1.2.1
        let r3 := oniceconnectionstatechange "alice" IceState.failed r2.1 r2.2.1
        lookupKV "alice" r3.2.1.ICEConnectionFailures = some 3 ∧
          lookupKV "alice" r3.2.1.peerIceTrickleDisabled = none ∧
          (∀ (st : IceState) (pc4 : PC),
            lookupKV "alice"
                (oniceconnectionstatechange "alice" st pc4 r3.2.1).2.1.peerIceTrickleDisabled
              = some true)) ∧
        (∀ (st : IceState) (pc' : PC) (s' : SkylinkState),
          lookupKV "alice" s'.peerIceTrickleDisabled = some true →
          lookupKV "alice"
              (oniceconnectionstatechange "alice" st pc' s').2.1.peerIceTrickleDisabled
            = some true)) :=
  ⟨by decide, by decide,
   trickle_disabled_on_fourth_event "alice" pcLive aliceState (by decide) (by decide)⟩

/-- A transport mid-negotiation: offer received, ICE still checking. -/
def pcNegotiating : PC :=
  { pcLive with signalingState := SigState.haveRemoteOffer,
                iceConnectionState := IceState.checking }

/-- A state with one mid-negotiation record for "alice" and its watchdog
running. -/
def watchState : SkylinkState :=
  { emptyState with peerConnections := [("alice", PCEntry.pc pcNegotiating)],
                    healthChecks := ["alice"] }

/-- C4 counterexample: signaling reaches STABLE first (ICE still checking),
then `iceConnectionState` transitions to CONNECTED — the order the claim
says also stabilizes.  The ICE-side handler checks only COMPLETED, so the
health flag is never set and the watchdog keeps running. -/
theorem connected_after_stable_no_health :
    (let r1 := onsignalingstatechange "alice" SigState.stable pcNegotiating watchState
     let r2 := oniceconnectionstatechange "alice" IceState.connected r1.1 r1.2.1
     lookupKV "alice" r2.2.1.peerConnectionHealth ≠ some true ∧
       r2.2.1.healthChecks = ["alice"] ∧
       Event.stopHealthCheck "alice" ∉ r1.2.2 ∧
       Event.stopHealthCheck "alice" ∉ r2.2.2) := by
  decide

/-- C4 amended: the stabilization action (set `health` true, stop the
watchdog) fires when `iceConnectionState` transitions to COMPLETED while
`signalingState` is STABLE, and when `signalingState` transitions to STABLE
while `iceConnectionState` is COMPLETED or CONNECTED (and re-firing the
latter is idempotent on the state); but a transition to CONNECTED on the
ICE side never stabilizes — the health map and watchdog set are untouched —
so CONNECTED only counts when the STABLE transition arrives second. -/
theorem health_stabilization_amended (p : String) :
    (∀ (pc : PC) (s : SkylinkState), pc.signalingState = SigState.stable →
      lookupKV p (oniceconnectionstatechange p IceState.completed pc s).2.1.peerConnectionHealth
          = some true ∧
        p ∉ (oniceconnectionstatechange p IceState.completed pc s).2.1.healthChecks ∧
        Event.stopHealthCheck p ∈ (oniceconnectionstatechange p IceState.completed pc s).2.2) ∧
      (∀ (pc : PC) (s : SkylinkState),
        (pc.iceConnectionState = IceState.completed ∨
          pc.iceConnectionState = IceState.connected) →
        lookupKV p (onsignalingstatechange p SigState.stable pc s).2.1.peerConnectionHealth
            = some true ∧
          p ∉ (onsignalingstatechange p SigState.stable pc s).2.1.healthChecks ∧
          Event.stopHealthCheck p ∈ (onsignalingstatechange p SigState.stable pc s).2.2 ∧
          (onsignalingstatechange p SigState.stable
              (onsignalingstatechange p SigState.stable pc s).1
              (onsignalingstatechange p SigState.stable pc s).2.1).2.1
            = (onsignalingstatechange p SigState.stable pc s).2.1) ∧
      (∀ (pc : PC) (s : SkylinkState),
        (oniceconnectionstatechange p IceState.connected pc s).2.1.peerConnectionHealth
            = s.peerConnectionHealth ∧
          (oniceconnectionstatechange p IceState.connected pc s).2.1.healthChecks
            = s.healthChecks) := by
  refine ⟨?_, ?_, ?_⟩
  · intro pc s hsig
    unfold oniceconnectionstatechange
    simp [hsig, lookup_setKV_self, not_mem_removeStr]
  · intro pc s hice
    unfold onsignalingstatechange
    rcases hice with h | h <;>
      simp [h, lookup_setKV_self, not_mem_removeStr, setKV_setKV_self, removeStr_removeStr]
  · intro pc s
    unfold oniceconnectionstatechange
    simp

/-- C4 witness: concrete instantiations of the amended stabilization theorem
at peer "alice". -/
theorem health_stabilization_amended_witness :
    pcLive.signalingState = SigState.stable ∧
      (lookupKV "alice"
            (oniceconnectionstatechange "alice" IceState.completed pcLive
              watchState).2.1.peerConnectionHealth = some true ∧
        "alice" ∉ (oniceconnectionstatechange "alice" IceState.completed pcLive
              watchState).2.1.healthChecks ∧
        Event.stopHealthCheck "alice" ∈
          (oniceconnectionstatechange "alice" IceState.completed pcLive watchState).2.2) ∧
      (pcLive.iceConnectionState = IceState.completed ∨
        pcLive.iceConnectionState = IceState.connected) ∧
      (lookupKV "alice"
            (onsignalingstatechange "alice" SigState.stable pcLive
              watchState).2.1.peerConnectionHealth = some true ∧
        "alice" ∉ (onsignalingstatechange "alice" SigState.stable pcLive
              watchState).2.1.healthChecks ∧
        Event.stopHealthCheck "alice" ∈
          (onsignalingstatechange "alice" SigState.stable pcLive watchState).2.2 ∧
        (onsignalingstatechange "alice" SigState.stable
            (onsignalingstatechange "alice" SigState.stable pcLive watchState).1
            (onsignalingstatechange "alice" SigState.stable pcLive watchState).2.1).2.1
          = (onsignalingstatechange "alice" SigState.stable pcLive watchState).2.1) ∧
      ((oniceconnectionstatechange "alice" IceState.connected pcNegotiating
            watchState).2.1.peerConnectionHealth = watchState.peerConnectionHealth ∧
        (oniceconnectionstatechange "alice" IceState.connected pcNegotiating
            watchState).2.1.healthChecks = watchState.healthChecks) :=
  ⟨by decide,
   (health_stabilization_amended "alice").1 pcLive watchState (by decide),
   by decide,
   (health_stabilization_amended "alice").2.1 pcLive watchState (by decide),
   (health_stabilization_amended "alice").2.2 pcNegotiating watchState⟩

/-- C1 counterexample: in the restart trace for "alice", the new transport
is created BEFORE the 1000 ms delay — the claim that the delay is imposed
before recreating is false: no delay event precedes the creation event;
the delay sits between creation and the `receiveOnly` restore / RESTART
message. -/
theorem restart_recreate_before_delay :
    subseq [Event.delayMs 1000, Event.createTransport "alice"]
        (_restartPeerConnection "alice" true (some true) false true 5000 aliceState).2.1
      = false ∧
      subseq [Event.createTransport "alice", Event.delayMs 1000]
        (_restartPeerConnection "alice" true (some true) false true 5000 aliceState).2.1
      = true := by
  decide

/-- C1 amended: for every peer with an existing record,
`restart(p, true, true)` proceeds in order: `dataChannelClosed` is set, the
two CLOSED one-shots are registered, the watchdog stops, the old transport's
`close()` is observed iff its signaling state is not already closed, the
close barrier (both CLOSED one-shots fired) precedes everything later, the
old record is deleted, the new transport is created immediately after the
barrier, and only then is the 1000 ms delay imposed, after which the new
record's `receiveOnly` equals the pre-restart value and (self-initiated) a
RESTART message with `isConnectionRestart = true` is sent; exactly one
transport is created and no exception is thrown. -/
theorem restart_sequence_amended (p : String) (c : PC) (hasCb : Bool) (now : Nat)
    (s : SkylinkState) (h : lookupKV p s.peerConnections = some (PCEntry.pc c)) :
    subseq
        ([Event.setDataChannelClosed p, Event.onceIceClosed p, Event.oncePcClosed p,
          Event.stopHealthCheck p] ++
         (if c.signalingState = SigState.closed then [] else [Event.transportClose p]) ++
         [Event.barrierBothClosed p, Event.deleteRecord p, Event.createTransport p,
          Event.delayMs 1000, Event.setRecvOnly p c.receiveOnly,
          Event.sendRestartMessage p true now, Event.triggerPeerRestart p])
        (_restartPeerConnection p true (some true) hasCb true now s).2.1 = true ∧
      ((Event.transportClose p ∈
          (_restartPeerConnection p true (some true) hasCb true now s).2.1) ↔
        c.signalingState ≠ SigState.closed) ∧
      countEv (Event.createTransport p)
        (_restartPeerConnection p true (some true) hasCb true now s).2.1 = 1 ∧
      lookupKV p
          (_restartPeerConnection p true (some true) hasCb true now s).1.peerConnections
        = some (PCEntry.pc { freshPC with receiveOnly := c.receiveOnly }) ∧
      (_restartPeerConnection p true (some true) hasCb true now s).2.2 = none := by
  by_cases hsig : c.signalingState = SigState.closed <;>
    by_cases hstr : c.hasStream = true <;>
      by_cases hro : c.receiveOnly = true <;>
        cases hasCb <;>
          simp [_restartPeerConnection, h, _createPeerConnection, entryOfOpt,
                subseq, countEv, lookup_setKV_self, hsig, hstr, hro]

/-- C1 witness: concrete instantiation of the amended restart-sequence
theorem at peer "alice". -/
theorem restart_sequence_amended_witness :
    lookupKV "alice" aliceState.peerConnections = some (PCEntry.pc pcLive) ∧
      (subseq
          ([Event.setDataChannelClosed "alice", Event.onceIceClosed "alice",
            Event.oncePcClosed "alice", Event.stopHealthCheck "alice"] ++
           (if pcLive.signalingState = SigState.closed then []
            else [Event.transportClose "alice"]) ++
           [Event.barrierBothClosed "alice", Event.deleteRecord "alice",
            Event.createTransport "alice", Event.delayMs 1000,
            Event.setRecvOnly "alice" pcLive.receiveOnly,
            Event.sendRestartMessage "alice" true 5000, Event.triggerPeerRestart "alice"])
          (_restartPeerConnection "alice" true (some true) false true 5000 aliceState).2.1
        = true ∧
        ((Event.transportClose "alice" ∈
            (_restartPeerConnection "alice" true (some true) false true 5000
              aliceState).2.1) ↔
          pcLive.signalingState ≠ SigState.closed) ∧
        countEv (Event.createTransport "alice")
          (_restartPeerConnection "alice" true (some true) false true 5000 aliceState).2.1
          = 1 ∧
        lookupKV "alice"
            (_restartPeerConnection "alice" true (some true) false true 5000
              aliceState).1.peerConnections
          = some (PCEntry.pc { freshPC with receiveOnly := pcLive.receiveOnly }) ∧
        (_restartPeerConnection "alice" true (some true) false true 5000 aliceState).2.2
          = none) :=
  ⟨by decide, restart_sequence_amended "alice" pcLive false 5000 aliceState (by decide)⟩

theorem toRefreshFold_state (now : Nat) (targets : List String)
    (acc : SkylinkState × List Event) : (toRefreshFold now targets acc).1 = acc.1 := by
  induction targets generalizing acc with
  | nil => rfl
  | cons hd tl ih =>
    unfold toRefreshFold at ih ⊢
    rw [List.foldl_cons, ih]
    simp [refreshSinglePeer_state]

theorem refreshConnection_dropped (pid : Option String) (t : Nat) (s : SkylinkState)
    (hdrop : (refreshConnection pid t s).2.2 = false) :
    (refreshConnection pid t s).1 = s := by
  by_cases hm : s.hasMCU
  · simp [refreshConnection, hm]
  · by_cases ha : throttleAllows 5000 s.throttleLast t = true
    · exfalso
      simp [refreshConnection, hm, ha] at hdrop
    · simp [refreshConnection, hm, ha]

theorem refreshConnection_executed (pid : Option String) (t : Nat) (s : SkylinkState)
    (hexec : (refreshConnection pid t s).2.2 = true) :
    (refreshConnection pid t s).1 = { s with throttleLast := some t } := by
  by_cases hm : s.hasMCU
  · exfalso
    simp [refreshConnection, hm] at hexec
  · by_cases ha : throttleAllows 5000 s.throttleLast t = true
    · simp [refreshConnection, hm, ha, toRefreshFold_state]
    · exfalso
      simp [refreshConnection, hm, ha] at hexec

theorem refreshConnection_not_exec_of_within (pid : Option String) (t te : Nat)
    (s : SkylinkState) (hte : s.throttleLast = some te) (hlt : t < te + 5000) :
    (refreshConnection pid t s).2.2 = false := by
  by_cases hm : s.hasMCU
  · simp [refreshConnection, hm]
  · have ha : throttleAllows 5000 s.throttleLast t = false := by
      rw [hte]
      simp [throttleAllows]
      omega
    simp [refreshConnection, hm, ha]

theorem refreshCallCount_zero (pid : Option String) (ts : List Nat) (te : Nat) :
    ∀ s : SkylinkState, s.throttleLast = some te → (∀ t ∈ ts, t < te + 5000) →
      (refreshCallCount pid ts s).2 = 0 ∧ (refreshCallCount pid ts s).1 = s := by
  induction ts with
  | nil =>
    intro s _ _
    exact ⟨rfl, rfl⟩
  | cons t rest ih =>
    intro s hte hwin
    have hne := refreshConnection_not_exec_of_within pid t te s hte (hwin t (by simp))
    have hstate := refreshConnection_dropped pid t s hne
    have ihr := ih s hte (fun t' ht' => hwin t' (by simp [ht']))
    simp [refreshCallCount, hne, hstate, ihr.1, ihr.2]

/-- C9: `refreshConnection` is globally throttled: for any chronological
sequence of invocation times lying inside one 5000 ms window (in particular
10 calls within 1000 ms), the throttled refresh body executes at most once;
excess calls inside the window are dropped without queueing (the dropped
calls leave the state untouched). -/
theorem refresh_throttle_at_most_once (pid : Option String) (ts : List Nat) (a : Nat)
    (s : SkylinkState) (hchain : List.Chain' (fun x y => x ≤ y) ts)
    (hwin : ∀ t ∈ ts, a ≤ t ∧ t < a + 5000) :
    (refreshCallCount pid ts s).2 ≤ 1 := by
  induction ts generalizing s with
  | nil => simp [refreshCallCount]
  | cons t rest ih =>
    have hwt := hwin t (by simp)
    cases hexec : (refreshConnection pid t s).2.2 with
    | false =>
      have hstate := refreshConnection_dropped pid t s hexec
      have hrest := ih s hchain.tail (fun t' ht' => hwin t' (by simp [ht']))
      calc (refreshCallCount pid (t :: rest) s).2
          = (refreshCallCount pid rest s).2 := by
            simp [refreshCallCount, hexec, hstate]
        _ ≤ 1 := hrest
    | true =>
      have hstate := refreshConnection_executed pid t s hexec
      have hzero := refreshCallCount_zero pid rest t { s with throttleLast := some t }
        rfl (fun t' ht' => by
          have h1 := (hwin t' (by simp [ht'])).2
          omega)
      calc (refreshCallCount pid (t :: rest) s).2
          = 1 + (refreshCallCount pid rest { s with throttleLast := some t }).2 := by
            simp [refreshCallCount, hexec, hstate]
        _ ≤ 1 := by rw [hzero.1]

/-- C9 witness: ten refresh calls within 1000 ms on the one-record state
execute the refresh body at most once. -/
theorem refresh_throttle_at_most_once_witness :
    List.Chain' (fun x y => x ≤ y) [0, 100, 200, 300, 400, 500, 600, 700, 800, 900] ∧
      (∀ t ∈ [0, 100, 200, 300, 400, 500, 600, 700, 800, 900], 0 ≤ t ∧ t < 0 + 5000) ∧
      (refreshCallCount (some "alice") [0, 100, 200, 300, 400, 500, 600, 700, 800, 900]
          aliceState).2 ≤ 1 :=
  ⟨by simp [List.chain'_cons], by decide,
   refresh_throttle_at_most_once (some "alice")
     [0, 100, 200, 300, 400, 500, 600, 700, 800, 900] 0 aliceState
     (by simp [List.chain'_cons]) (by decide)⟩
